import Mathlib

/-!
# Formal model of the MetaStackerBandit batch pipeline

A shallow embedding of `run.py`: a batch pipeline that loads a YAML config
and a CSV of close prices, computes a rolling mean over the close column,
derives a binary trading signal, and writes a JSON metrics record (success
or error shaped) to the output path.

Modelling conventions:
* Floating point close prices and means are modelled as exact rationals.
* The filesystem is abstracted: the parse result of the config file and of
  the input CSV are passed to `main` as inductive states; the paths appear
  only inside error messages.
* Wall-clock time is a parameter (`latency_ms`); `time.time()` is the only
  nondeterminism in the script.
* Writes to the output path are collected in a list (`RunResult.writes`),
  the stdout echo in `RunResult.stdout`, and `sys.exit` codes in
  `RunResult.exitCode`.
* Logging is a pure side channel touched by no claim and is omitted.
* `np.random.seed(config["seed"])` mutates global RNG state that the
  script never reads again, but it raises `ValueError` for any seed
  outside `[0, 2^32)`; that error path is modelled. For in-range seeds
  the call has no observable effect.
-/

namespace MetaStackerBandit

/-- A validated configuration: required keys `seed`, `window`, `version`. -/
structure Config where
  seed : Int
  window : Nat
  version : String
deriving DecidableEq

/-- An input CSV row: a `close` price plus arbitrary passthrough columns
(kept abstract as name/value string pairs). -/
structure PriceRow where
  close : ℚ
  extra : List (String × String)
deriving DecidableEq, Inhabited

/-- A row after `compute_rolling_mean`: the original row plus the
`rolling_mean` column (`none` models pandas NaN from an incomplete window). -/
structure RMRow where
  price : PriceRow
  rolling_mean : Option ℚ
deriving DecidableEq

/-- A row after `generate_signals`: the previous columns plus `signal`. -/
structure ProcessedRow where
  price : PriceRow
  rolling_mean : Option ℚ
  signal : Nat
deriving DecidableEq

/-- The success-shaped output record of `calculate_metrics`. -/
structure MetricsRecord where
  version : String
  rows_processed : Nat
  metric : String
  value : ℚ
  latency_ms : Int
  seed : Int
  status : String
deriving DecidableEq

/-- The error-shaped output record of `write_error_output`. -/
structure ErrorRecord where
  version : String
  status : String
  error_message : String
deriving DecidableEq

/-- Python `round(x, ndigits)` on exact rationals: scale, round half to
even, unscale. -/
def pyRound (q : ℚ) (ndigits : Nat) : ℚ :=
  let p : ℚ := (10 : ℚ) ^ ndigits
  let s : ℚ := q * p
  let f : Int := ⌊s⌋
  let n : Int :=
    if s - f < 1/2 then f
    else if 1/2 < s - f then f + 1
    else if f % 2 = 0 then f else f + 1
  (n : ℚ) / p

/-- pandas `Series.rolling(window=window).mean()` at 0-based index `i`:
the mean of the last `window` values ending at `i`, or NaN (`none`) when
fewer than `window` values exist. -/
def rollingMean (closes : List ℚ) (window : Nat) (i : Nat) : Option ℚ :=
  if 1 ≤ window ∧ window ≤ i + 1 then
    some ((((closes.take (i + 1)).drop (i + 1 - window)).sum) / window)
  else none

/-- Model of `compute_rolling_mean` (run.py:98-102): adds the `rolling_mean` column
computed from the `close` column. -/
def compute_rolling_mean (rows : List PriceRow) (window : Nat) : List RMRow :=
  (List.range rows.length).map fun i =>
    { price := rows.getD i default
      rolling_mean := rollingMean (rows.map PriceRow.close) window i }

/-- Model of `generate_signals` (run.py:105-118): `signal` defaults to 0, and on
rows with a defined rolling mean it is `int(close > rolling_mean)`. -/
def generate_signals (rows : List RMRow) : List ProcessedRow :=
  rows.map fun r =>
    { price := r.price
      rolling_mean := r.rolling_mean
      signal :=
        match r.rolling_mean with
        | some m => if m < r.price.close then 1 else 0
        | none => 0 }

/-- Model of `calculate_metrics` (run.py:121-141): the success record, with
`value = round(df["signal"].mean(), 4)`. -/
def calculate_metrics (df : List ProcessedRow) (config : Config)
    (latency_ms : Int) : MetricsRecord :=
  { version := config.version
    rows_processed := df.length
    metric := "signal_rate"
    value := pyRound (((df.map fun r => (r.signal : ℚ)).sum) / df.length) 4
    latency_ms := latency_ms
    seed := config.seed
    status := "success" }

/-- The exception classes distinguished by the handlers in `main`:
`FileNotFoundError`, `KeyError`, `ValueError`, and the catch-all
`Exception`. Each carries its message. -/
inductive Err where
  | fileNotFound (msg : String)
  | keyError (msg : String)
  | valueError (msg : String)
  | unexpected (msg : String)
deriving DecidableEq

/-- The parse state of the config file: nonexistent path, a YAML document
that parses to `None`, or a parsed mapping in which each required key is
present (`some`) or absent (`none`); extra keys are ignored by the code. -/
inductive ConfigFileState where
  | missing
  | empty
  | parsed (seed : Option Int) (window : Option Nat) (version : Option String)
deriving DecidableEq

/-- The parse state of the input CSV: nonexistent path, a pandas
`ParserError`, or a parsed table with or without a `close` column. -/
inductive DataFileState where
  | missing
  | parseError
  | table (hasClose : Bool) (rows : List PriceRow)
deriving DecidableEq

/-- Python `repr` of a list of strings, as interpolated into the missing
keys message. -/
def pyStrListRepr (l : List String) : String :=
  "[" ++ String.intercalate (", ") (l.map fun s => "\x27" ++ s ++ "\x27") ++ "]"

/-- The `missing` list of `load_config`: required keys absent from the
parsed config, in `required_keys` order. -/
def missingKeys (seed : Option Int) (window : Option Nat)
    (version : Option String) : List String :=
  (if seed.isSome then [] else ["seed"]) ++
    (if window.isSome then [] else ["window"]) ++
      (if version.isSome then [] else ["version"])

/-- Model of `load_config` (run.py:55-75): validates existence, non-emptiness and
required keys of the YAML config. -/
def load_config (config_path : String) (st : ConfigFileState) :
    Except Err Config :=
  match st with
  | .missing =>
      .error (.fileNotFound ("Configuration file not found: " ++ config_path))
  | .empty =>
      .error (.valueError ("Configuration file is empty or invalid"))
  | .parsed (some seed) (some window) (some version) =>
      .ok { seed := seed, window := window, version := version }
  | .parsed seed window version =>
      .error (.keyError ("Missing required configuration keys: " ++
        pyStrListRepr (missingKeys seed window version)))

/-- Model of `load_data` (run.py:78-95): validates existence, parseability,
non-emptiness and the presence of the `close` column. -/
def load_data (input_path : String) (st : DataFileState) :
    Except Err (List PriceRow) :=
  match st with
  | .missing =>
      .error (.fileNotFound ("Input file not found: " ++ input_path))
  | .parseError =>
      .error (.valueError ("Invalid CSV file format"))
  | .table hasClose rows =>
      if rows.isEmpty then
        .error (.valueError ("Input CSV file is empty"))
      else if !hasClose then
        .error (.keyError ("Required column \x27close\x27 not found in input data"))
      else
        .ok rows

/-- A single write to the output path: either the success record of
`write_output` or the error record of `write_error_output`. -/
inductive OutputDoc where
  | success (m : MetricsRecord)
  | failure (e : ErrorRecord)
deriving DecidableEq

/-- Model of `write_output` (run.py:144-148): serializes the success record. -/
def write_output (metrics : MetricsRecord) : OutputDoc :=
  .success metrics

/-- Model of `write_error_output` (run.py:151-159): serializes the error record;
`version` defaults to the fallback token `"v1"`. -/
def write_error_output (error_message : String)
    (version : String := "v1") : OutputDoc :=
  .failure { version := version, status := "error",
             error_message := error_message }

/-- The observable outcome of one run of `main`: every write performed on
the output path (in order), the stdout echo, and the process exit code. -/
structure RunResult where
  writes : List OutputDoc
  stdout : Option MetricsRecord
  exitCode : Nat
deriving DecidableEq

/-- The message each `except` handler in `main` passes to
`write_error_output`. For `KeyError`, Python `str(e)` wraps the message in
quotes and `msg.strip("\x27\x22")` removes them again, so the handler
forwards the original message. -/
def errToMessage : Err → String
  | .fileNotFound msg => msg
  | .keyError msg => msg
  | .valueError msg => msg
  | .unexpected msg => msg

/-- Model of `main` (run.py:162-219): the pipeline driver. `version` starts at the
fallback `"v1"` and is replaced once the config loads; the first failing
stage aborts the run into the matching handler. After a successful config
load, `np.random.seed(config["seed"])` (run.py:177) raises `ValueError`
for any seed outside `[0, 2^32)`, caught by the handler at run.py:211. -/
def main (config_path input_path : String) (cfg : ConfigFileState)
    (data : DataFileState) (latency_ms : Int) : RunResult :=
  let version := "v1"
  match load_config config_path cfg with
  | .error e =>
      { writes := [write_error_output (errToMessage e) version]
        stdout := none
        exitCode := 1 }
  | .ok config =>
      if config.seed < 0 ∨ 4294967296 ≤ config.seed then
        { writes := [write_error_output
            ("Seed must be between 0 and 2**32 - 1") config.version]
          stdout := none
          exitCode := 1 }
      else
        match load_data input_path data with
        | .error e =>
            { writes := [write_error_output (errToMessage e) config.version]
              stdout := none
              exitCode := 1 }
        | .ok rows =>
            let df := compute_rolling_mean rows config.window
            let df := generate_signals df
            let metrics := calculate_metrics df config latency_ms
            { writes := [write_output metrics]
              stdout := some metrics
              exitCode := 0 }

/-- The best version known to `main` at failure time: the configured
version when config loading succeeded, else the fallback token `"v1"`. -/
def bestVersion (config_path : String) (cfg : ConfigFileState) : String :=
  match load_config config_path cfg with
  | .ok config => config.version
  | .error _ => "v1"

/-- The error of the first failing stage of the run, if any. -/
def stageError (config_path input_path : String) (cfg : ConfigFileState)
    (data : DataFileState) : Option Err :=
  match load_config config_path cfg with
  | .error e => some e
  | .ok config =>
      if config.seed < 0 ∨ 4294967296 ≤ config.seed then
        some (.valueError ("Seed must be between 0 and 2**32 - 1"))
      else
        match load_data input_path data with
        | .error e => some e
        | .ok _ => none

/-- The concrete close prices of the spec scenario in section 8. -/
def sampleRows : List PriceRow :=
  [⟨10, []⟩, ⟨20, []⟩, ⟨30, []⟩, ⟨25, []⟩, ⟨40, []⟩]

/-- The concrete config of the spec scenario in section 8. -/
def sampleConfig : Config :=
  { seed := 42, window := 3, version := "v1" }

/-- A one-row input used by witnesses. -/
def smallRows : List PriceRow :=
  [⟨10, []⟩]

/-- The third processed row of the spec scenario: close 30 against rolling
mean 20 yields signal 1. -/
def sampleSignalRow : ProcessedRow := ⟨⟨30, []⟩, some 20, 1⟩

/-- Erase the only wall-clock dependent field of a success record. -/
def scrubMetrics (m : MetricsRecord) : MetricsRecord :=
  { m with latency_ms := 0 }

/-- Erase the wall-clock dependent field of an output document. -/
def scrubDoc : OutputDoc → OutputDoc
  | .success m => .success (scrubMetrics m)
  | .failure e => .failure e

/-! ## General lemmas about the pipeline stages -/

theorem length_compute_rolling_mean (rows : List PriceRow) (window : Nat) :
    (compute_rolling_mean rows window).length = rows.length := by
  simp [compute_rolling_mean]

theorem length_generate_signals (rows : List RMRow) :
    (generate_signals rows).length = rows.length := by
  simp [generate_signals]

theorem compute_rolling_mean_get (rows : List PriceRow) (window i : Nat)
    (h : i < (compute_rolling_mean rows window).length) :
    (compute_rolling_mean rows window).get ⟨i, h⟩ =
      { price := rows.getD i default
        rolling_mean := rollingMean (rows.map PriceRow.close) window i } := by
  simp [compute_rolling_mean]

theorem sum_take (l : List ℚ) (n : Nat) :
    (l.take n).sum = ∑ k in Finset.range n, l.getD k 0 := by
  induction n with
  | zero => simp
  | succ n ih =>
    rw [List.take_succ, List.sum_append, Finset.sum_range_succ, ih]
    congr 1
    cases h : l[n]? with
    | none => simp [List.getD, h]
    | some a => simp [List.getD, h]

theorem sum_take_drop (l : List ℚ) (a b : Nat) :
    ((l.take b).drop a).sum = ∑ k in Finset.Ico a b, l.getD k 0 := by
  rcases le_or_lt a b with hab | hab
  · have h1 : (l.take b).take a = l.take a := by
      rw [List.take_take, Nat.min_eq_left hab]
    have h2 : (l.take b).sum = (l.take a).sum + ((l.take b).drop a).sum := by
      conv_lhs => rw [← List.take_append_drop a (l.take b)]
      rw [List.sum_append, h1]
    rw [Finset.sum_Ico_eq_sub _ hab, ← sum_take l b, ← sum_take l a]
    linarith
  · have h1 : (l.take b).drop a = [] := by
      apply List.drop_eq_nil_of_le
      calc (l.take b).length ≤ b := by simp
        _ ≤ a := Nat.le_of_lt hab
    rw [h1, Finset.Ico_eq_empty (by omega)]
    simp

theorem rollingMean_spec (closes : List ℚ) (window i : Nat) (hw : 1 ≤ window) :
    rollingMean closes window i =
      if window - 1 ≤ i then
        some ((∑ k in Finset.Icc (i + 1 - window) i, closes.getD k 0) / window)
      else none := by
  unfold rollingMean
  rcases le_or_lt window (i + 1) with h | h
  · rw [if_pos ⟨hw, h⟩, if_pos (by omega), sum_take_drop, ← Nat.Ico_succ_right]
  · rw [if_neg (by omega), if_neg (by omega)]

theorem signal_eq_one_iff (rows : List RMRow) (r : ProcessedRow)
    (hr : r ∈ generate_signals rows) :
    r.signal = 1 ↔ ∃ m, r.rolling_mean = some m ∧ m < r.price.close := by
  unfold generate_signals at hr
  rcases List.mem_map.mp hr with ⟨x, hx, rfl⟩
  cases hm : x.rolling_mean with
  | none => simp [hm]
  | some m =>
    by_cases hlt : m < x.price.close
    · simp [hm, hlt]
    · simp [hm, hlt]

theorem signal_zero_or_one (rows : List RMRow) (r : ProcessedRow)
    (hr : r ∈ generate_signals rows) :
    r.signal = 1 ∨ r.signal = 0 := by
  unfold generate_signals at hr
  rcases List.mem_map.mp hr with ⟨x, hx, rfl⟩
  cases hm : x.rolling_mean with
  | none => simp [hm]
  | some m =>
    by_cases hlt : m < x.price.close
    · simp [hm, hlt]
    · simp [hm, hlt]

theorem sum_map_signal_eq_countP (l : List ProcessedRow)
    (h : ∀ r ∈ l, r.signal = 1 ∨ r.signal = 0) :
    (l.map fun r => (r.signal : ℚ)).sum = ((l.countP fun r => r.signal == 1 : Nat) : ℚ) := by
  induction l with
  | nil => simp
  | cons a l ih =>
    have ha := h a (by simp)
    have hl : ∀ r ∈ l, r.signal = 1 ∨ r.signal = 0 := fun r hr => h r (by simp [hr])
    rcases ha with h1 | h0
    · simp [List.countP_cons, h1, ih hl]
      ring
    · simp [List.countP_cons, h0, ih hl]

/-! ## Claim theorems -/

/-- C2: for every row sequence and positive window, the rolling mean at
0-indexed row `i` equals the arithmetic mean of the close values of rows
`i - window + 1` through `i` inclusive when `i >= window - 1`, and is
absent for every row with `i < window - 1`. -/
theorem rolling_mean_is_window_mean (rows : List PriceRow) (window i : Nat)
    (hw : 1 ≤ window) (h : i < (compute_rolling_mean rows window).length) :
    ((compute_rolling_mean rows window).get ⟨i, h⟩).rolling_mean =
      if window - 1 ≤ i then
        some ((∑ k in Finset.Icc (i + 1 - window) i,
          (rows.map PriceRow.close).getD k 0) / window)
      else none := by
  rw [compute_rolling_mean_get]
  exact rollingMean_spec _ _ _ hw

/-- Witness for C2 at the spec scenario, window 3, row 2. -/
theorem rolling_mean_is_window_mean_witness :
    1 ≤ 3 ∧
    ((compute_rolling_mean sampleRows 3).get
        ⟨2, by simp [compute_rolling_mean, sampleRows]⟩).rolling_mean =
      (if 3 - 1 ≤ 2 then
        some ((∑ k in Finset.Icc (2 + 1 - 3) 2,
          (sampleRows.map PriceRow.close).getD k 0) / 3)
      else none) :=
  ⟨by decide, rolling_mean_is_window_mean sampleRows 3 2 (by decide)
    (by simp [compute_rolling_mean, sampleRows])⟩

/-- C1: in the processed sequence, a row has `signal = 1` iff its rolling
mean is defined and its close is strictly greater than that rolling mean;
in every other case (undefined rolling mean, or close not above the mean,
ties included) the signal is 0. -/
theorem signal_iff_close_above_mean (rows : List PriceRow) (window : Nat)
    (r : ProcessedRow)
    (hr : r ∈ generate_signals (compute_rolling_mean rows window)) :
    (r.signal = 1 ↔ ∃ m, r.rolling_mean = some m ∧ m < r.price.close) ∧
    (r.signal = 1 ∨ r.signal = 0) :=
  ⟨signal_eq_one_iff _ r hr, signal_zero_or_one _ r hr⟩

theorem sampleSignalRow_mem :
    sampleSignalRow ∈ generate_signals (compute_rolling_mean sampleRows 3) := by
  have h : generate_signals (compute_rolling_mean sampleRows 3) =
      [⟨⟨10, []⟩, none, 0⟩, ⟨⟨20, []⟩, none, 0⟩, ⟨⟨30, []⟩, some 20, 1⟩,
        ⟨⟨25, []⟩, some 25, 0⟩, ⟨⟨40, []⟩, some (95/3), 1⟩] := by
    simp [generate_signals, compute_rolling_mean, sampleRows, rollingMean,
      List.range_succ]
    norm_num
  rw [h]
  simp [sampleSignalRow]

/-- Witness for C1 at the third row of the spec scenario. -/
theorem signal_iff_close_above_mean_witness :
    sampleSignalRow ∈ generate_signals (compute_rolling_mean sampleRows 3) ∧
    ((sampleSignalRow.signal = 1 ↔
        ∃ m, sampleSignalRow.rolling_mean = some m ∧
          m < sampleSignalRow.price.close) ∧
      (sampleSignalRow.signal = 1 ∨ sampleSignalRow.signal = 0)) :=
  ⟨sampleSignalRow_mem,
    signal_iff_close_above_mean sampleRows 3 sampleSignalRow sampleSignalRow_mem⟩

/-- C7: the signal-engine stages preserve row order and sequence length and
leave every original column of every row unchanged; `generate_signals` also
leaves the `rolling_mean` column unchanged. They only add columns. -/
theorem stages_preserve_rows (rows : List PriceRow) (window : Nat) :
    (compute_rolling_mean rows window).map RMRow.price = rows ∧
    (generate_signals (compute_rolling_mean rows window)).map ProcessedRow.price
      = rows ∧
    (generate_signals (compute_rolling_mean rows window)).map
        ProcessedRow.rolling_mean
      = (compute_rolling_mean rows window).map RMRow.rolling_mean ∧
    (compute_rolling_mean rows window).length = rows.length ∧
    (generate_signals (compute_rolling_mean rows window)).length
      = rows.length := by
  have h1 : (compute_rolling_mean rows window).map RMRow.price = rows := by
    apply List.ext_getElem (by simp [compute_rolling_mean])
    intro i h1 h2
    simp [compute_rolling_mean, List.getD, List.getElem?_eq_getElem h2]
  refine ⟨h1, ?_, ?_, by simp [compute_rolling_mean],
    by simp [generate_signals, compute_rolling_mean]⟩
  · rw [generate_signals, List.map_map]
    exact h1
  · rw [generate_signals, List.map_map]
    rfl

/-- C9: the pipeline is deterministic in its data-dependent outputs: two
runs on identical parse states agree on everything written, echoed and
signalled, once the wall-clock dependent `latency_ms` field is erased. -/
theorem run_deterministic (config_path input_path : String)
    (cfg : ConfigFileState) (data : DataFileState) (t₁ t₂ : Int) :
    (main config_path input_path cfg data t₁).writes.map scrubDoc
      = (main config_path input_path cfg data t₂).writes.map scrubDoc ∧
    (main config_path input_path cfg data t₁).stdout.map scrubMetrics
      = (main config_path input_path cfg data t₂).stdout.map scrubMetrics ∧
    (main config_path input_path cfg data t₁).exitCode
      = (main config_path input_path cfg data t₂).exitCode := by
  unfold main
  cases load_config config_path cfg with
  | error e => simp
  | ok config =>
    by_cases hs : config.seed < 0 ∨ (4294967296 : Int) ≤ config.seed
    · simp [hs]
    · cases load_data input_path data with
      | error e => simp [hs]
      | ok rows => simp [hs, scrubDoc, scrubMetrics, write_output, calculate_metrics]

/-- C8: on every run the output path is written exactly once, with a
success-shaped record exactly when the run succeeds (exit code 0) and an
error-shaped record exactly when it fails (exit code 1), never both. -/
theorem output_written_once (config_path input_path : String)
    (cfg : ConfigFileState) (data : DataFileState) (t : Int) :
    (main config_path input_path cfg data t).writes.length = 1 ∧
    ((∃ m, (main config_path input_path cfg data t).writes
          = [OutputDoc.success m] ∧
        (main config_path input_path cfg data t).exitCode = 0) ∨
      (∃ e, (main config_path input_path cfg data t).writes
          = [OutputDoc.failure e] ∧
        (main config_path input_path cfg data t).exitCode = 1)) := by
  unfold main
  cases load_config config_path cfg with
  | error e => simp [write_error_output]
  | ok config =>
    by_cases hs : config.seed < 0 ∨ (4294967296 : Int) ≤ config.seed
    · simp [hs, write_error_output]
    · cases load_data input_path data with
      | error e => simp [hs, write_error_output]
      | ok rows => simp [hs, write_output]

/-- C3: on a successful run over a non-empty row sequence, the reported
value equals the count of rows with `signal = 1` divided by the total row
count, rounded to 4 decimal places. -/
theorem signal_rate_is_rounded_fraction (rows : List PriceRow) (window : Nat)
    (config : Config) (t : Int) (_hne : rows ≠ []) :
    (calculate_metrics (generate_signals (compute_rolling_mean rows window))
        config t).value
      = pyRound
          ((((generate_signals (compute_rolling_mean rows window)).countP
              fun r => r.signal == 1 : Nat) : ℚ) / rows.length) 4 := by
  unfold calculate_metrics
  rw [sum_map_signal_eq_countP _ (fun r hr => signal_zero_or_one _ r hr),
    length_generate_signals, length_compute_rolling_mean]

/-- Witness for C3 at the spec scenario. -/
theorem signal_rate_is_rounded_fraction_witness :
    sampleRows ≠ [] ∧
    (calculate_metrics (generate_signals (compute_rolling_mean sampleRows 3))
        sampleConfig 0).value
      = pyRound
          ((((generate_signals (compute_rolling_mean sampleRows 3)).countP
              fun r => r.signal == 1 : Nat) : ℚ) / sampleRows.length) 4 :=
  ⟨by decide, signal_rate_is_rounded_fraction sampleRows 3 sampleConfig 0 (by decide)⟩

/-- Counterexample to C6 as stated: on the spec-valid config
`{seed: -1, window: 3, version: "v1"}` and a non-empty input, the run
writes no success record at all — `np.random.seed(-1)` raises
`ValueError` (run.py:177), so the output is an error record and the exit
code is 1. -/
theorem rows_processed_out_of_range_seed :
    (main ("config.yaml") ("input.csv")
        (.parsed (some (-1)) (some 3) (some ("v1"))) (.table true smallRows) 0).writes
      = [write_error_output ("Seed must be between 0 and 2**32 - 1") ("v1")] ∧
    (main ("config.yaml") ("input.csv")
        (.parsed (some (-1)) (some 3) (some ("v1"))) (.table true smallRows) 0).exitCode
      = 1 ∧
    ¬∃ m, (main ("config.yaml") ("input.csv")
        (.parsed (some (-1)) (some 3) (some ("v1"))) (.table true smallRows) 0).writes
      = [OutputDoc.success m] := by
  have hw : (main ("config.yaml") ("input.csv")
      (.parsed (some (-1)) (some 3) (some ("v1"))) (.table true smallRows) 0).writes
      = [write_error_output ("Seed must be between 0 and 2**32 - 1") ("v1")] := by
    decide
  refine ⟨hw, by decide, ?_⟩
  rintro ⟨m, hm⟩
  rw [hw] at hm
  simp [write_error_output] at hm

/-- C6 (amended): for every valid config whose seed lies in `[0, 2^32)`
(the seeds `np.random.seed` accepts) and every non-empty input, the run
succeeds with a single success write whose `rows_processed` equals the
input row count. -/
theorem rows_processed_is_input_count (config_path input_path : String)
    (seed : Int) (window : Nat) (version : String) (rows : List PriceRow)
    (t : Int) (hs0 : 0 ≤ seed) (hs1 : seed < 2 ^ 32) (hne : rows ≠ []) :
    (main config_path input_path (.parsed (some seed) (some window) (some version))
        (.table true rows) t).writes
      = [write_output (calculate_metrics
          (generate_signals (compute_rolling_mean rows window))
          ⟨seed, window, version⟩ t)] ∧
    (calculate_metrics (generate_signals (compute_rolling_mean rows window))
        ⟨seed, window, version⟩ t).rows_processed = rows.length := by
  have h32 : (2 : Int) ^ 32 = 4294967296 := by norm_num
  rw [h32] at hs1
  have hs : ¬(seed < 0 ∨ (4294967296 : Int) ≤ seed) := by omega
  constructor
  · simp [main, load_config, load_data, hne, hs]
  · simp [calculate_metrics, length_generate_signals, length_compute_rolling_mean]

/-- Witness for C6 on a one-row input with the in-range seed 42. -/
theorem rows_processed_is_input_count_witness :
    (0 : Int) ≤ 42 ∧ (42 : Int) < 2 ^ 32 ∧ smallRows ≠ [] ∧
    ((main ("config.yaml") ("input.csv") (.parsed (some 42) (some 3) (some ("v1")))
        (.table true smallRows) 0).writes
      = [write_output (calculate_metrics
          (generate_signals (compute_rolling_mean smallRows 3)) ⟨42, 3, "v1"⟩ 0)] ∧
    (calculate_metrics (generate_signals (compute_rolling_mean smallRows 3))
        ⟨42, 3, "v1"⟩ 0).rows_processed = smallRows.length) :=
  ⟨by decide, by decide, by decide,
    rows_processed_is_input_count ("config.yaml") ("input.csv") 42 3 ("v1")
      smallRows 0 (by decide) (by decide) (by decide)⟩

/-- C4: whenever a stage fails, the run writes exactly one error record of
shape `{version, status = "error", error_message}` to the output path, with
the configured version when config loading succeeded and the fallback
`"v1"` otherwise, echoes nothing, and exits with code 1. -/
theorem failure_writes_error_record (config_path input_path : String)
    (cfg : ConfigFileState) (data : DataFileState) (t : Int) (e : Err)
    (he : stageError config_path input_path cfg data = some e) :
    (main config_path input_path cfg data t).writes
      = [write_error_output (errToMessage e) (bestVersion config_path cfg)] ∧
    (main config_path input_path cfg data t).exitCode = 1 ∧
    (main config_path input_path cfg data t).stdout = none := by
  cases hc : load_config config_path cfg with
  | error e1 =>
    simp only [stageError, hc] at he
    injection he with he
    subst he
    simp [main, bestVersion, hc]
  | ok config =>
    by_cases hs : config.seed < 0 ∨ (4294967296 : Int) ≤ config.seed
    · simp only [stageError, hc, if_pos hs] at he
      injection he with he
      subst he
      simp [main, bestVersion, hc, hs, errToMessage]
    · cases hd : load_data input_path data with
      | error e2 =>
        simp only [stageError, hc, if_neg hs, hd] at he
        injection he with he
        subst he
        simp [main, bestVersion, hc, hs, hd]
      | ok rows =>
        simp only [stageError, hc, if_neg hs, hd] at he
        cases he

/-- Witness for C4 on a nonexistent config path. -/
theorem failure_writes_error_record_witness :
    stageError ("config.yaml") ("input.csv") ConfigFileState.missing
        (DataFileState.table true smallRows)
      = some (Err.fileNotFound ("Configuration file not found: config.yaml")) ∧
    ((main ("config.yaml") ("input.csv") ConfigFileState.missing
        (DataFileState.table true smallRows) 0).writes
      = [write_error_output
          (errToMessage (Err.fileNotFound ("Configuration file not found: config.yaml")))
          (bestVersion ("config.yaml") ConfigFileState.missing)] ∧
    (main ("config.yaml") ("input.csv") ConfigFileState.missing
        (DataFileState.table true smallRows) 0).exitCode = 1 ∧
    (main ("config.yaml") ("input.csv") ConfigFileState.missing
        (DataFileState.table true smallRows) 0).stdout = none) :=
  ⟨rfl, failure_writes_error_record ("config.yaml") ("input.csv") ConfigFileState.missing
    (DataFileState.table true smallRows) 0
    (Err.fileNotFound ("Configuration file not found: config.yaml")) rfl⟩

/-- Counterexample to C10 as stated: on the spec-valid config
`{seed: -1, window: 2, version: "v1"}` and a one-row input (window
strictly greater than the row count), the pipeline does not complete
successfully — `np.random.seed(-1)` raises `ValueError` (run.py:177), the
run writes an error record and exits with code 1. -/
theorem oversized_window_out_of_range_seed :
    smallRows.length < 2 ∧
    (main ("config.yaml") ("input.csv")
        (.parsed (some (-1)) (some 2) (some ("v1"))) (.table true smallRows) 0).exitCode
      = 1 ∧
    (main ("config.yaml") ("input.csv")
        (.parsed (some (-1)) (some 2) (some ("v1"))) (.table true smallRows) 0).writes
      = [write_error_output ("Seed must be between 0 and 2**32 - 1") ("v1")] ∧
    ¬∃ m, (main ("config.yaml") ("input.csv")
        (.parsed (some (-1)) (some 2) (some ("v1"))) (.table true smallRows) 0).writes
      = [OutputDoc.success m] := by
  have hw : (main ("config.yaml") ("input.csv")
      (.parsed (some (-1)) (some 2) (some ("v1"))) (.table true smallRows) 0).writes
      = [write_error_output ("Seed must be between 0 and 2**32 - 1") ("v1")] := by
    decide
  refine ⟨by decide, by decide, hw, ?_⟩
  rintro ⟨m, hm⟩
  rw [hw] at hm
  simp [write_error_output] at hm

/-- C10 (amended): when the window is a positive integer strictly greater
than the row count, the input is non-empty, and the seed lies in
`[0, 2^32)` (the seeds `np.random.seed` accepts), the run still succeeds:
the rolling mean is undefined at every row, every signal is 0, and the
reported value is 0. -/
theorem oversized_window_degenerates (config_path input_path : String)
    (seed : Int) (window : Nat) (version : String) (rows : List PriceRow)
    (t : Int) (_hw : 0 < window) (hs0 : 0 ≤ seed) (hs1 : seed < 2 ^ 32)
    (hne : rows ≠ []) (hlen : rows.length < window) :
    (compute_rolling_mean rows window).map RMRow.rolling_mean
      = List.replicate rows.length none ∧
    (generate_signals (compute_rolling_mean rows window)).map ProcessedRow.signal
      = List.replicate rows.length 0 ∧
    (main config_path input_path (.parsed (some seed) (some window) (some version))
        (.table true rows) t).exitCode = 0 ∧
    (main config_path input_path (.parsed (some seed) (some window) (some version))
        (.table true rows) t).writes
      = [write_output (calculate_metrics
          (generate_signals (compute_rolling_mean rows window))
          ⟨seed, window, version⟩ t)] ∧
    (calculate_metrics (generate_signals (compute_rolling_mean rows window))
        ⟨seed, window, version⟩ t).value = 0 := by
  have hrm : ∀ i, i < rows.length →
      rollingMean (rows.map PriceRow.close) window i = none := by
    intro i hi
    unfold rollingMean
    rw [if_neg (by omega)]
  have h1 : (compute_rolling_mean rows window).map RMRow.rolling_mean
      = List.replicate rows.length none := by
    apply List.ext_getElem (by simp [compute_rolling_mean])
    intro i hi1 hi2
    have hi : i < rows.length := by simpa [compute_rolling_mean] using hi1
    simp [compute_rolling_mean, hrm i hi]
  have h2 : (generate_signals (compute_rolling_mean rows window)).map
      ProcessedRow.signal = List.replicate rows.length 0 := by
    apply List.ext_getElem (by simp [generate_signals, compute_rolling_mean])
    intro i hi1 hi2
    have hi : i < rows.length := by
      simpa [generate_signals, compute_rolling_mean] using hi1
    simp [generate_signals, compute_rolling_mean, hrm i hi]
  have h3 : (calculate_metrics (generate_signals (compute_rolling_mean rows window))
      ⟨seed, window, version⟩ t).value = 0 := by
    unfold calculate_metrics
    have hmap : ((generate_signals (compute_rolling_mean rows window)).map
        fun r => (r.signal : ℚ)) = List.replicate rows.length (0 : ℚ) := by
      have := congrArg (List.map fun n : Nat => (n : ℚ)) h2
      rwa [List.map_map, List.map_replicate] at this
    rw [hmap]
    simp [pyRound]
  have h32 : (2 : Int) ^ 32 = 4294967296 := by norm_num
  rw [h32] at hs1
  have hs : ¬(seed < 0 ∨ (4294967296 : Int) ≤ seed) := by omega
  exact ⟨h1, h2, by simp [main, load_config, load_data, hne, hs],
    by simp [main, load_config, load_data, hne, hs], h3⟩

/-- Witness for C10 with one row, window 2 and the in-range seed 42. -/
theorem oversized_window_degenerates_witness :
    0 < 2 ∧ (0 : Int) ≤ 42 ∧ (42 : Int) < 2 ^ 32 ∧
    smallRows ≠ [] ∧ smallRows.length < 2 ∧
    ((compute_rolling_mean smallRows 2).map RMRow.rolling_mean
      = List.replicate smallRows.length none ∧
    (generate_signals (compute_rolling_mean smallRows 2)).map ProcessedRow.signal
      = List.replicate smallRows.length 0 ∧
    (main ("config.yaml") ("input.csv") (.parsed (some 42) (some 2) (some ("v1")))
        (.table true smallRows) 0).exitCode = 0 ∧
    (main ("config.yaml") ("input.csv") (.parsed (some 42) (some 2) (some ("v1")))
        (.table true smallRows) 0).writes
      = [write_output (calculate_metrics
          (generate_signals (compute_rolling_mean smallRows 2)) ⟨42, 2, "v1"⟩ 0)] ∧
    (calculate_metrics (generate_signals (compute_rolling_mean smallRows 2))
        ⟨42, 2, "v1"⟩ 0).value = 0) :=
  ⟨by decide, by decide, by decide, by decide, by decide,
    oversized_window_degenerates ("config.yaml") ("input.csv") 42 2 ("v1") smallRows 0
      (by decide) (by decide) (by decide) (by decide) (by decide)⟩

/-- C5: on config `{seed 42, window 3, version "v1"}` and closes
`[10, 20, 30, 25, 40]` the pipeline produces rolling means
`[-, -, 20, 25, 95/3]`, signals `[0, 0, 1, 0, 1]`, and one success record
with value 2/5, `rows_processed` 5, metric `"signal_rate"` and status
`"success"`. -/
theorem concrete_scenario :
    (compute_rolling_mean sampleRows 3).map RMRow.rolling_mean
      = [none, none, some 20, some 25, some (95/3)] ∧
    (generate_signals (compute_rolling_mean sampleRows 3)).map ProcessedRow.signal
      = [0, 0, 1, 0, 1] ∧
    (main ("config.yaml") ("input.csv") (.parsed (some 42) (some 3) (some ("v1")))
        (.table true sampleRows) 0).writes
      = [write_output (calculate_metrics
          (generate_signals (compute_rolling_mean sampleRows 3)) sampleConfig 0)] ∧
    (main ("config.yaml") ("input.csv") (.parsed (some 42) (some 3) (some ("v1")))
        (.table true sampleRows) 0).exitCode = 0 ∧
    (calculate_metrics (generate_signals (compute_rolling_mean sampleRows 3))
        sampleConfig 0).value = 2/5 ∧
    (calculate_metrics (generate_signals (compute_rolling_mean sampleRows 3))
        sampleConfig 0).rows_processed = 5 ∧
    (calculate_metrics (generate_signals (compute_rolling_mean sampleRows 3))
        sampleConfig 0).metric = "signal_rate" ∧
    (calculate_metrics (generate_signals (compute_rolling_mean sampleRows 3))
        sampleConfig 0).status = "success" := by
  refine ⟨?_, ?_, ?_, ?_, ?_, ?_, ?_, ?_⟩
  · simp [compute_rolling_mean, sampleRows, rollingMean, List.range_succ]
    norm_num
  · simp [generate_signals, compute_rolling_mean, sampleRows, rollingMean,
      List.range_succ]
    norm_num
  · simp [main, load_config, load_data, sampleRows, sampleConfig]
  · simp [main, load_config, load_data, sampleRows]
  · simp [calculate_metrics, generate_signals, compute_rolling_mean, sampleRows,
      sampleConfig, rollingMean, List.range_succ, pyRound]
    norm_num
  · simp [calculate_metrics, generate_signals, compute_rolling_mean, sampleRows]
  · rfl
  · rfl

end MetaStackerBandit
